import Mathlib

/-!
Verification of the conversation-continuity and escalation orchestrator of the
score-mvp-prototype backend (`src/backend/api/agent.py`).

The embedding models Python floats as exact rationals (`ℚ`), Python optional
strings as `Option String` with Python truthiness made explicit, timestamps as
integers (seconds), and each external generative call as an input of type
`Except Unit (Option String)`: `.error` models the call raising an exception,
`.ok txt` models a response whose `.text` attribute is `txt` (with `none` for a
missing text and `some ""` reachable as well).  A Python exception escaping to
the generic handler at the bottom of `query` is modelled by the whole run
returning `.error`.
-/

deriving instance DecidableEq for Except

attribute [local semireducible] Rat.add Rat.sub Rat.mul Rat.inv

namespace ScoreMvp

/-- Python `str.strip()` on the character list: drop leading and trailing
whitespace. -/
def pyStripList (cs : List Char) : List Char :=
  ((cs.dropWhile Char.isWhitespace).reverse.dropWhile Char.isWhitespace).reverse

/-- Python `str.strip()`. -/
def pyStrip (s : String) : String := String.mk (pyStripList s.toList)

/-- Python truthiness of an optional string: `None` and `""` are falsy.
This is the test `not conv_session.last_topic` (agent.py lines 194 and 232)
and `if response.text` (line 219). -/
def topicFalsy : Option String → Bool
  | none => true
  | some s => s.isEmpty

/-- Translation of Python `min(a, b)` on two floats (agent.py line 244). -/
def pymin (a b : ℚ) : ℚ := if a ≤ b then a else b

/-- The topic-persistence penalty added to the raw classifier probability,
agent.py line 243: `(current_topic_length - 1) * 0.1` when
`current_topic_length < 5`, else `0.5`.  Note that at `ctl = 0` this is `-1/10`. -/
def penalty (ctl : Nat) : ℚ :=
  if ctl < 5 then ((ctl : ℚ) - 1) * (1 / 10) else 1 / 2

/-- The fused frustration score, agent.py lines 243-244:
`frustration_score += penalty; frustration_score = min(frustration_score, 1.0)`. -/
def fusedScore (raw : ℚ) (ctl : Nat) : ℚ := pymin (raw + penalty ctl) 1

/-- Errors that can escape to the generic `except` handler of `query`
(agent.py lines 295-297), each failing the request with HTTP 500. -/
inductive PyError
  | typeError
  | apiFailure
deriving Repr, DecidableEq

/-- Lines 239-244 of agent.py: the raw probability extracted from the
frustration analysis is `None` when the analyzer is absent or its analysis
failed; the statement `frustration_score += ...` then raises `TypeError`
(`None` plus a float), modelled as `.error .typeError`. -/
def fuseStep (rawProb : Option ℚ) (ctl : Nat) : Except PyError ℚ :=
  match rawProb with
  | none => .error .typeError
  | some raw => .ok (fusedScore raw ctl)

/-- The two behavioral system instructions of the support agent. -/
inductive Prompt
  | standard
  | escalated
deriving Repr, DecidableEq

/-- Line 266 of agent.py: `cfg[...]["frustration_prompt"] if frustration_score
and frustration_score > 0.5 else cfg[...]["system_prompt"]`.  Python truthiness
of the float makes a score of exactly `0` (falsy) take the standard branch. -/
def selectPrompt (fs : Option ℚ) : Prompt :=
  match fs with
  | none => .standard
  | some v => if v = 0 then .standard else if 1 / 2 < v then .escalated else .standard

/-- Lines 218-221 of agent.py: the reply of the forced-choice continuity query
is stripped, lowercased, non-alphabetic characters are discarded, and an
all-filtered-out result falls back to `"no"`; a missing or empty reply leaves
the initial `""`. -/
def normalizeReply (txt : Option String) : String :=
  match txt with
  | none => ""
  | some t =>
    if t.isEmpty then ""
    else
      let filtered := String.mk (((pyStripList t.toList).map Char.toLower).filter Char.isAlpha)
      if filtered.isEmpty then "no" else filtered

/-- Lines 56-69 of agent.py, `make_topic_summary`, applied to the text of the
summary call's response: `response.text.strip() if response.text else
"No response from summary agent"`.  A whitespace-only text is truthy, so its
stripped form — the empty string — is returned. -/
def make_topic_summary (respText : Option String) : String :=
  if topicFalsy respText then "No response from summary agent"
  else pyStrip (respText.getD "")

/-- The session fields read and written by `query`
(ConversationSession in db_models.py): `last_topic : str | None`,
`current_topic_length : int` (default 0), and the last-update timestamp,
modelled in seconds. -/
structure SessionState where
  last_topic : Option String
  current_topic_length : Nat
  updated_at : Int
deriving Repr, DecidableEq

/-- The three topic-continuity outcomes of spec section 4.1. -/
inductive TopicOutcome
  | FRESH
  | CONTINUED
  | DRIFTED
deriving Repr, DecidableEq

/-- Lines 188-230 of agent.py: session resolution and topic-continuity
evaluation.  `sess0 = none` models a request without a valid session id: a new
session is created with the db_models defaults (`last_topic = None`,
`current_topic_length = 0`) and the continuity block is skipped (FRESH).
For an existing session, a falsy `last_topic` or an idle time beyond
`thread_timeout_seconds` resets the topic (FRESH, lines 194-198); otherwise
the continuity call runs (raising aborts the request) and any normalized
reply other than `"yes"` resets the topic (DRIFTED, lines 225-227); a `"yes"`
leaves the session untouched (CONTINUED). -/
def resolveTopic (sess0 : Option SessionState) (now timeout : Int)
    (contResp : Except Unit (Option String)) :
    Except PyError (SessionState × TopicOutcome) :=
  match sess0 with
  | none => .ok (⟨none, 0, now⟩, .FRESH)
  | some s =>
    if topicFalsy s.last_topic || decide (now - s.updated_at > timeout) then
      .ok ({ s with last_topic := none, current_topic_length := 0 }, .FRESH)
    else
      match contResp with
      | .error _ => .error .apiFailure
      | .ok txt =>
        if normalizeReply txt = "yes" then .ok (s, .CONTINUED)
        else .ok ({ s with last_topic := none, current_topic_length := 0 }, .DRIFTED)

/-- Lines 232-235 of agent.py: when `last_topic` is falsy, a topic summary is
generated and stored; the generative call raising aborts the request (there is
no handler around `make_topic_summary`). -/
def summarizeIfNeeded (s : SessionState)
    (summaryResp : Except Unit (Option String)) : Except PyError SessionState :=
  if topicFalsy s.last_topic then
    match summaryResp with
    | .error _ => .error .apiFailure
    | .ok txt => .ok { s with last_topic := some (make_topic_summary txt) }
  else .ok s

/-- The observable result of a successful `query` run: the committed session
row, the topic outcome, the `current_topic_length` value at the moment the
fusion formula ran (line 243, before the end-of-cycle increment), the fused
score stored on the user message, the system instruction chosen for the main
reply, and the `current_topic_length` returned in the response (line 291). -/
structure QueryOk where
  session : SessionState
  outcome : TopicOutcome
  ctlAtFusion : Nat
  fused : ℚ
  prompt : Prompt
  respCtl : Nat
deriving Repr, DecidableEq

/-- The orchestration core of `query` (agent.py lines 188-293): resolve the
session and evaluate topic continuity, summarize the topic if it is falsy,
fuse the frustration score (raising `TypeError` when the raw probability is
absent), select the system instruction, run the main generation call
(`mainOk = false` models it raising), then commit the session with
`updated_at = now` and `current_topic_length` incremented by one
(lines 281-286) and return the incremented length (line 291). -/
def runQuery (sess0 : Option SessionState) (rawProb : Option ℚ)
    (contResp summaryResp : Except Unit (Option String))
    (mainOk : Bool) (now timeout : Int) : Except PyError QueryOk :=
  match resolveTopic sess0 now timeout contResp with
  | .error e => .error e
  | .ok (s1, outcome) =>
    match summarizeIfNeeded s1 summaryResp with
    | .error e => .error e
    | .ok s2 =>
      match fuseStep rawProb s2.current_topic_length with
      | .error e => .error e
      | .ok fused =>
        let prompt := selectPrompt (some fused)
        let s3 : SessionState :=
          { s2 with updated_at := now, current_topic_length := s2.current_topic_length + 1 }
        if mainOk then
          .ok { session := s3,
                outcome := outcome,
                ctlAtFusion := s2.current_topic_length,
                fused := fused,
                prompt := prompt,
                respCtl := s2.current_topic_length + 1 }
        else .error .apiFailure

/-- The structured syntax diagnostic built by `get_syntax_errors`
(agent.py lines 47-54). -/
structure SyntaxDiag where
  msg : String
  lineno : Nat
  col : Option Nat
  end_line : Option Nat
  end_col : Option Nat
  text : Option String
deriving Repr, DecidableEq

/-- A `SyntaxError` raised by the Python parser, with the attributes read by
`get_syntax_errors`.  CPython documents `lineno` as the 1-indexed line number. -/
structure PySynError where
  msg : String
  lineno : Nat
  col : Option Nat
  end_line : Option Nat
  end_col : Option Nat
  text : Option String
deriving Repr, DecidableEq

/-- Lines 42-54 of agent.py.  The call `ast.parse` is the CPython parser, an
external collaborator modelled as an oracle `parse` returning `none` on a
syntactically valid source and the raised `SyntaxError` otherwise.
`get_syntax_errors` returns `None` on success and otherwise copies the error's
fields, with `err.text.rstrip("\n") if err.text else None` for the text. -/
def get_syntax_errors (parse : String → Option PySynError) (source : String) :
    Option SyntaxDiag :=
  match parse source with
  | none => none
  | some err =>
    some { msg := err.msg, lineno := err.lineno, col := err.col,
           end_line := err.end_line, end_col := err.end_col,
           text := match err.text with
                   | none => none
                   | some t =>
                     if t.isEmpty then none
                     else some (String.mk
                       ((t.toList.reverse.dropWhile (fun c => c = '\n')).reverse)) }

/-! ## General lemmas about the embedded operations -/

theorem pymin_eq_min (a b : ℚ) : pymin a b = min a b := by
  rw [pymin, min_def]

theorem penalty_le_half (ctl : Nat) : penalty ctl ≤ 1 / 2 := by
  rw [penalty]
  split
  · rename_i h
    have h4 : (ctl : ℚ) ≤ 4 := by exact_mod_cast Nat.lt_succ_iff.mp h
    linarith
  · linarith

theorem neg_tenth_le_penalty (ctl : Nat) : -(1 / 10) ≤ penalty ctl := by
  rw [penalty]
  split
  · have h0 : (0 : ℚ) ≤ (ctl : ℚ) := Nat.cast_nonneg ctl
    linarith
  · linarith

theorem penalty_nonneg_of_pos (ctl : Nat) (h : 1 ≤ ctl) : 0 ≤ penalty ctl := by
  rw [penalty]
  split
  · have h1 : (1 : ℚ) ≤ (ctl : ℚ) := by exact_mod_cast h
    linarith
  · linarith

theorem fusedScore_le_one (raw : ℚ) (ctl : Nat) : fusedScore raw ctl ≤ 1 := by
  rw [fusedScore, pymin_eq_min]
  exact min_le_right _ _

theorem neg_tenth_le_fusedScore (raw : ℚ) (ctl : Nat) (h : 0 ≤ raw) :
    -(1 / 10) ≤ fusedScore raw ctl := by
  rw [fusedScore, pymin_eq_min]
  refine le_min (by linarith [neg_tenth_le_penalty ctl]) (by linarith)

theorem fusedScore_nonneg (raw : ℚ) (ctl : Nat) (h : 0 ≤ raw) (h1 : 1 ≤ ctl) :
    0 ≤ fusedScore raw ctl := by
  rw [fusedScore, pymin_eq_min]
  refine le_min (by linarith [penalty_nonneg_of_pos ctl h1]) (by linarith)

theorem summarizeIfNeeded_ok (s : SessionState) (r : Except Unit (Option String))
    (s2 : SessionState) (h : summarizeIfNeeded s r = .ok s2) :
    s2.last_topic.isSome = true ∧
    s2.current_topic_length = s.current_topic_length := by
  rw [summarizeIfNeeded.eq_def] at h
  split at h
  · cases r with
    | error e => exact absurd h (by simp)
    | ok txt =>
      dsimp only at h
      obtain rfl : ({ s with last_topic := some (make_topic_summary txt) } : SessionState) = s2 :=
        Except.ok.inj h
      exact ⟨rfl, rfl⟩
  · obtain rfl : s = s2 := Except.ok.inj h
    rename_i hf
    cases hlt : s.last_topic with
    | none => rw [hlt] at hf; exact absurd rfl hf
    | some t => exact ⟨rfl, rfl⟩

/-- The `current_topic_length` left in the session by the topic-continuity
evaluation: the prior length on CONTINUED, the reset value 0 on FRESH and
DRIFTED. -/
def lengthAfterTopicEval (pre : Nat) : TopicOutcome → Nat
  | .CONTINUED => pre
  | _ => 0

/-- The prior `current_topic_length` of the resolved session (0 for a newly
created session). -/
def priorLength (sess0 : Option SessionState) : Nat :=
  (sess0.map fun s => s.current_topic_length).getD 0

theorem resolveTopic_ctl (sess0 : Option SessionState) (now timeout : Int)
    (contResp : Except Unit (Option String)) (s1 : SessionState) (outcome : TopicOutcome)
    (h : resolveTopic sess0 now timeout contResp = .ok (s1, outcome)) :
    s1.current_topic_length = lengthAfterTopicEval (priorLength sess0) outcome := by
  cases sess0 with
  | none =>
    rw [resolveTopic.eq_def] at h
    injection h with h'
    injection h' with h1 h2
    subst h1; subst h2
    rfl
  | some s =>
    rw [resolveTopic.eq_def] at h
    dsimp only at h
    split at h
    · injection h with h'
      injection h' with h1 h2
      subst h1; subst h2
      rfl
    · cases contResp with
      | error e => exact absurd h (by simp)
      | ok txt =>
        dsimp only at h
        split at h
        · injection h with h'
          injection h' with h1 h2
          subst h1; subst h2
          rfl
        · injection h with h'
          injection h' with h1 h2
          subst h1; subst h2
          rfl

theorem runQuery_ok_elim (sess0 : Option SessionState) (rawProb : Option ℚ)
    (contResp summaryResp : Except Unit (Option String)) (mainOk : Bool)
    (now timeout : Int) (q : QueryOk)
    (h : runQuery sess0 rawProb contResp summaryResp mainOk now timeout = .ok q) :
    ∃ s1 outcome s2 raw,
      resolveTopic sess0 now timeout contResp = .ok (s1, outcome) ∧
      summarizeIfNeeded s1 summaryResp = .ok s2 ∧
      rawProb = some raw ∧ mainOk = true ∧
      q = ⟨⟨s2.last_topic, s2.current_topic_length + 1, now⟩, outcome,
           s2.current_topic_length, fusedScore raw s2.current_topic_length,
           selectPrompt (some (fusedScore raw s2.current_topic_length)),
           s2.current_topic_length + 1⟩ := by
  rw [runQuery] at h
  cases hr : resolveTopic sess0 now timeout contResp with
  | error e => rw [hr] at h; exact absurd h (by simp)
  | ok p =>
    obtain ⟨s1, outcome⟩ := p
    rw [hr] at h
    dsimp only at h
    cases hs : summarizeIfNeeded s1 summaryResp with
    | error e => rw [hs] at h; exact absurd h (by simp)
    | ok s2 =>
      rw [hs] at h
      dsimp only at h
      cases rawProb with
      | none => exact absurd h (by simp [fuseStep])
      | some raw =>
        rw [fuseStep] at h
        dsimp only at h
        cases mainOk with
        | false => exact absurd h (by simp)
        | true =>
          refine ⟨s1, outcome, s2, raw, rfl, hs, rfl, rfl, ?_⟩
          exact (Except.ok.inj h).symm

/-! ## Spec-side definitions for refinement comparison -/

/-- Spec section 4.2, written from the spec's words for the C4 comparison:
`penalty = 0.1 * (currentTopicLength - 1)` if `currentTopicLength < 5`,
else `penalty = 0.5`. -/
def specPenalty (ctl : Nat) : ℚ :=
  if ctl < 5 then (1 / 10) * ((ctl : ℚ) - 1) else 1 / 2

/-- Spec section 4.2, written from the spec's words: `fused = raw_probability
+ penalty`, then clamped to at most 1.0. -/
def specFused (raw : ℚ) (ctl : Nat) : ℚ := min (raw + specPenalty ctl) 1

theorem fusedScore_eq_specFused (raw : ℚ) (ctl : Nat) :
    fusedScore raw ctl = specFused raw ctl := by
  rw [fusedScore, specFused, pymin_eq_min, penalty, specPenalty]
  split
  · rw [mul_comm]
  · rfl

/-! ## Claim theorems -/

/-- C1 counterexample: a request on a fresh topic (`currentTopicLength = 0`)
with raw classifier probability 0 — both inputs allowed by the claim — commits
a fused frustration score of -1/10, which is not in [0,1]: the penalty
`(0 - 1) * 0.1 = -0.1` is negative and only an upper clamp is applied. -/
theorem c1_counterexample :
    runQuery none (some 0) (.ok none) (.ok (some "t")) true 0 100 =
      .ok ⟨⟨some "t", 1, 0⟩, .FRESH, 0, -(1 / 10), .standard, 1⟩ ∧
    ¬ ((0 : ℚ) ≤ -(1 / 10)) := by decide

/-- C1 (amended): for every raw probability in [0,1] the fused score is at
most 1 and at least -1/10, and it lies in [0,1] whenever the pre-increment
`currentTopicLength` is at least 1 (written `ctl + 1`); the violation of the
original claim is confined to `currentTopicLength = 0`. -/
theorem c1_amended (raw : ℚ) (ctl : Nat) (h0 : 0 ≤ raw) (_h1 : raw ≤ 1) :
    (-(1 / 10) ≤ fusedScore raw ctl ∧ fusedScore raw ctl ≤ 1) ∧
    (0 ≤ fusedScore raw (ctl + 1) ∧ fusedScore raw (ctl + 1) ≤ 1) :=
  ⟨⟨neg_tenth_le_fusedScore raw ctl h0, fusedScore_le_one raw ctl⟩,
   ⟨fusedScore_nonneg raw (ctl + 1) h0 (Nat.le_add_left 1 ctl),
    fusedScore_le_one raw (ctl + 1)⟩⟩

/-- C1 witness: the amended bounds at raw probability 1/2 and
`currentTopicLength` 0 and 1. -/
theorem c1_witness :
    ((0 : ℚ) ≤ 1 / 2) ∧ ((1 / 2 : ℚ) ≤ 1) ∧
    ((-(1 / 10) ≤ fusedScore (1 / 2) 0 ∧ fusedScore (1 / 2) 0 ≤ 1) ∧
     (0 ≤ fusedScore (1 / 2) (0 + 1) ∧ fusedScore (1 / 2) (0 + 1) ≤ 1)) :=
  ⟨by decide, by decide, c1_amended (1 / 2) 0 (by decide) (by decide)⟩

/-- C2: when the frustration analyzer is absent, the raw probability is `None`
and the statement `frustration_score += ...` (agent.py line 243) raises
`TypeError`, so the request fails with HTTP 500 instead of degrading
gracefully as the claim requires; nothing is persisted. -/
theorem c2_analyzer_absent_crashes :
    runQuery (some ⟨some "t", 2, 0⟩) none (.ok (some "yes")) (.ok (some "x"))
      true 0 100 = .error .typeError := by decide

/-- C3: every session committed by a successful run of `query` has a non-null
`last_topic` (line 232 always fills a falsy topic before the commit), so the
claimed invariant — `last_topic` null implies `current_topic_length = 0` —
holds of every persisted state. -/
theorem c3_commit_invariant (sess0 : Option SessionState) (rawProb : Option ℚ)
    (contResp summaryResp : Except Unit (Option String)) (mainOk : Bool)
    (now timeout : Int) (q : QueryOk)
    (h : runQuery sess0 rawProb contResp summaryResp mainOk now timeout = .ok q) :
    q.session.last_topic.isSome = true ∨ q.session.current_topic_length = 0 := by
  obtain ⟨s1, outcome, s2, raw, hr, hs, hraw, hmain, hq⟩ :=
    runQuery_ok_elim sess0 rawProb contResp summaryResp mainOk now timeout q h
  subst hq
  exact Or.inl (summarizeIfNeeded_ok s1 summaryResp s2 hs).1

/-- C3 witness: the invariant at a concrete CONTINUED run. -/
theorem c3_witness :
    (⟨⟨some "t", 2, 0⟩, .CONTINUED, 1, 3 / 10, .standard, 2⟩ :
        QueryOk).session.last_topic.isSome = true ∨
    (⟨⟨some "t", 2, 0⟩, .CONTINUED, 1, 3 / 10, .standard, 2⟩ :
        QueryOk).session.current_topic_length = 0 :=
  c3_commit_invariant (some ⟨some "t", 1, 0⟩) (some (3 / 10)) (.ok (some "yes"))
    (.ok (some "x")) true 0 100
    ⟨⟨some "t", 2, 0⟩, .CONTINUED, 1, 3 / 10, .standard, 2⟩ (by decide)

/-- C4: on every successful run with a raw probability present, the fused
score equals the spec formula `min(raw + penalty, 1)` evaluated at the
`currentTopicLength` in force when fusion ran; that value is the one left by
the topic-continuity evaluation (the pre-reset/continue value of the session),
and the committed length is its successor, so fusion indeed uses the value
before the end-of-cycle increment. -/
theorem c4_fusion_formula (sess0 : Option SessionState) (raw : ℚ)
    (contResp summaryResp : Except Unit (Option String)) (mainOk : Bool)
    (now timeout : Int) (q : QueryOk)
    (h : runQuery sess0 (some raw) contResp summaryResp mainOk now timeout = .ok q) :
    q.fused = specFused raw q.ctlAtFusion ∧
    q.session.current_topic_length = q.ctlAtFusion + 1 ∧
    q.ctlAtFusion = lengthAfterTopicEval (priorLength sess0) q.outcome := by
  obtain ⟨s1, outcome, s2, raw2, hr, hs, hraw, hmain, hq⟩ :=
    runQuery_ok_elim sess0 (some raw) contResp summaryResp mainOk now timeout q h
  obtain rfl : raw = raw2 := Option.some.inj hraw
  subst hq
  refine ⟨fusedScore_eq_specFused raw s2.current_topic_length, rfl, ?_⟩
  dsimp only
  rw [(summarizeIfNeeded_ok s1 summaryResp s2 hs).2]
  exact resolveTopic_ctl sess0 now timeout contResp s1 outcome hr

/-- C4 witness: a CONTINUED run at length 6 (so the saturated penalty 1/2
applies): fused = min(1/5 + 1/2, 1) = 7/10, computed at the pre-increment
length 6, committed as 7. -/
theorem c4_witness :
    (⟨⟨some "t", 7, 0⟩, .CONTINUED, 6, 7 / 10, .escalated, 7⟩ : QueryOk).fused =
      specFused (1 / 5)
        (⟨⟨some "t", 7, 0⟩, .CONTINUED, 6, 7 / 10, .escalated, 7⟩ : QueryOk).ctlAtFusion ∧
    (⟨⟨some "t", 7, 0⟩, .CONTINUED, 6, 7 / 10, .escalated, 7⟩ :
        QueryOk).session.current_topic_length =
      (⟨⟨some "t", 7, 0⟩, .CONTINUED, 6, 7 / 10, .escalated, 7⟩ : QueryOk).ctlAtFusion + 1 ∧
    (⟨⟨some "t", 7, 0⟩, .CONTINUED, 6, 7 / 10, .escalated, 7⟩ : QueryOk).ctlAtFusion =
      lengthAfterTopicEval (priorLength (some ⟨some "t", 6, 0⟩))
        (⟨⟨some "t", 7, 0⟩, .CONTINUED, 6, 7 / 10, .escalated, 7⟩ : QueryOk).outcome :=
  c4_fusion_formula (some ⟨some "t", 6, 0⟩) (1 / 5) (.ok (some "Yes")) (.ok (some "x"))
    true 0 100 ⟨⟨some "t", 7, 0⟩, .CONTINUED, 6, 7 / 10, .escalated, 7⟩ (by decide)

/-- C5 counterexample: a DRIFTED cycle (continuity reply "no") resets the
length to 0 during evaluation but the unconditional increment at agent.py
line 282 then commits it as 1, not the claimed reset value 0. -/
theorem c5_counterexample :
    runQuery (some ⟨some "t", 3, 0⟩) (some (1 / 5)) (.ok (some "no"))
      (.ok (some "newtopic")) true 0 100 =
      .ok ⟨⟨some "newtopic", 1, 0⟩, .DRIFTED, 0, 1 / 10, .standard, 1⟩ := by decide

/-- C5 (amended): the increment at the end of a successful cycle is
unconditional: on CONTINUED the committed `currentTopicLength` is the prior
value plus one, while on FRESH and DRIFTED the value is reset to 0 during
topic evaluation and therefore committed as 1 (not 0). -/
theorem c5_amended (sess0 : Option SessionState) (rawProb : Option ℚ)
    (contResp summaryResp : Except Unit (Option String)) (mainOk : Bool)
    (now timeout : Int) (q : QueryOk)
    (h : runQuery sess0 rawProb contResp summaryResp mainOk now timeout = .ok q) :
    q.session.current_topic_length =
      lengthAfterTopicEval (priorLength sess0) q.outcome + 1 := by
  obtain ⟨s1, outcome, s2, raw, hr, hs, hraw, hmain, hq⟩ :=
    runQuery_ok_elim sess0 rawProb contResp summaryResp mainOk now timeout q h
  subst hq
  dsimp only
  rw [(summarizeIfNeeded_ok s1 summaryResp s2 hs).2,
    resolveTopic_ctl sess0 now timeout contResp s1 outcome hr]

/-- C5 witness: a FRESH cycle (idle session of length 7) commits length 1. -/
theorem c5_witness :
    (⟨⟨some "topictwo", 1, 10⟩, .FRESH, 0, 2 / 5, .standard, 1⟩ :
        QueryOk).session.current_topic_length =
      lengthAfterTopicEval (priorLength (some ⟨none, 7, 5⟩))
        (⟨⟨some "topictwo", 1, 10⟩, .FRESH, 0, 2 / 5, .standard, 1⟩ : QueryOk).outcome + 1 :=
  c5_amended (some ⟨none, 7, 5⟩) (some (1 / 2)) (.ok none) (.ok (some "topictwo"))
    true 10 100 ⟨⟨some "topictwo", 1, 10⟩, .FRESH, 0, 2 / 5, .standard, 1⟩ (by decide)

/-- C6: the system instruction chosen for the main reply (agent.py line 266)
is a pure function of the fused score: the empathy-escalated instruction is
selected exactly when the fused score exists and strictly exceeds 1/2; in
every other case — no score, score 0 (falsy in Python), or score at most 1/2 —
the standard instruction is used. -/
theorem c6_prompt_selection (fs : Option ℚ) :
    selectPrompt fs = .escalated ↔ ∃ v, fs = some v ∧ 1 / 2 < v := by
  cases fs with
  | none => simp [selectPrompt]
  | some v =>
    rw [selectPrompt]
    by_cases h0 : v = 0
    · subst h0
      rw [if_pos rfl]
      constructor
      · intro hcontra; exact absurd hcontra (by simp)
      · rintro ⟨w, hw, hlt⟩
        obtain rfl : (0 : ℚ) = w := Option.some.inj hw
        exact absurd hlt (by norm_num)
    · rw [if_neg h0]
      by_cases hlt : 1 / 2 < v
      · rw [if_pos hlt]
        exact ⟨fun _ => ⟨v, rfl, hlt⟩, fun _ => rfl⟩
      · rw [if_neg hlt]
        constructor
        · intro hcontra; exact absurd hcontra (by simp)
        · rintro ⟨w, hw, hltw⟩
          obtain rfl : v = w := Option.some.inj hw
          exact absurd hltw hlt

/-- C7: the topic-summary generation call raising is fatal: `make_topic_summary`
has no exception handler, so the error escapes to the generic handler and the
request fails with HTTP 500 — it does not proceed with a null topic as the
claim requires. -/
theorem c7_summary_failure_aborts :
    runQuery none (some (1 / 2)) (.ok none) (.error ()) true 0 100 =
      .error .apiFailure := by decide

/-- C8: `get_syntax_errors` returns `None` exactly when the parser accepts the
source, and on a rejected source it returns a diagnostic carrying the parser's
`lineno`; the CPython parser (an external collaborator) is an oracle whose
raised `SyntaxError` always has a 1-indexed `lineno`, which the diagnostic
therefore inherits. -/
theorem c8_diagnostic_roundtrip (parse : String → Option PySynError)
    (hp : ∀ s e, parse s = some e → 1 ≤ e.lineno) (source : String) :
    (get_syntax_errors parse source = none ↔ parse source = none) ∧
    ((get_syntax_errors parse source).all fun d => decide (1 ≤ d.lineno)) = true := by
  cases hps : parse source with
  | none =>
    refine ⟨⟨fun _ => rfl, fun _ => ?_⟩, ?_⟩
    · rw [get_syntax_errors, hps]
    · rw [get_syntax_errors, hps]; rfl
  | some err =>
    refine ⟨⟨fun hc => ?_, fun hc => ?_⟩, ?_⟩
    · rw [get_syntax_errors, hps] at hc; exact absurd hc (by simp)
    · exact absurd hc (by simp)
    · rw [get_syntax_errors, hps]
      simpa [Option.all] using hp source err hps

/-- C8 witness: a parse oracle rejecting exactly the source "(" with a
line-1 error. -/
def parenOracle : String → Option PySynError := fun s =>
  if s = "(" then some ⟨"unexpected EOF", 1, some 1, some 1, some 2, some "("⟩ else none

/-- C8 witness: the round-trip at the oracle rejecting "(". -/
theorem c8_witness :
    (get_syntax_errors parenOracle "(" = none ↔ parenOracle "(" = none) ∧
    ((get_syntax_errors parenOracle "(").all fun d => decide (1 ≤ d.lineno)) = true :=
  c8_diagnostic_roundtrip parenOracle
    (fun s e h => by
      rw [parenOracle] at h
      split at h
      · exact Option.some.inj h ▸ Nat.le_refl 1
      · exact absurd h (by simp))
    "("

/-- C9: any forced-choice continuity reply whose normalization (strip,
lowercase, keep only alphabetic characters, empty fallback) differs from the
affirmative token "yes" resets the topic: outcome DRIFTED with `last_topic`
cleared and `currentTopicLength` zeroed; this covers missing and empty
replies, which normalize to "". -/
theorem c9_nonaffirmative_drifts (s : SessionState) (now timeout : Int)
    (txt : Option String)
    (h1 : topicFalsy s.last_topic = false)
    (h2 : ¬ (now - s.updated_at > timeout))
    (h3 : normalizeReply txt ≠ "yes") :
    resolveTopic (some s) now timeout (.ok txt) =
      .ok ({ s with last_topic := none, current_topic_length := 0 }, .DRIFTED) := by
  rw [resolveTopic]
  rw [h1, Bool.false_or, decide_eq_false h2]
  rw [if_neg Bool.false_ne_true]
  rw [if_neg h3]

/-- C9 witness: reply "No!" on a live topic normalizes to "no" and drifts. -/
theorem c9_witness :
    resolveTopic (some ⟨some "t", 3, 0⟩) 0 100 (.ok (some "No!")) =
      .ok ({ (⟨some "t", 3, 0⟩ : SessionState) with
               last_topic := none, current_topic_length := 0 }, .DRIFTED) :=
  c9_nonaffirmative_drifts ⟨some "t", 3, 0⟩ 0 100 (some "No!")
    (by decide) (by decide) (by decide)

/-- C10 counterexample: when the topic-summary response text is whitespace-only
(truthy in Python), `make_topic_summary` returns the stripped empty string and
the cycle commits `last_topic = some ""` — non-null but empty, contradicting
the claim that the persisted topic is always a non-empty string. -/
theorem c10_counterexample :
    runQuery none (some (1 / 2)) (.ok none) (.ok (some " ")) true 0 100 =
      .ok ⟨⟨some "", 1, 0⟩, .FRESH, 0, 2 / 5, .standard, 1⟩ ∧
    ("" : String).isEmpty = true := by decide

/-- C10 (amended): after every successful cycle the committed `last_topic` is
non-null (though possibly the empty string, when the summary reply is
whitespace-only) and both the committed and the returned
`current_topic_length` are at least 1. -/
theorem c10_amended (sess0 : Option SessionState) (rawProb : Option ℚ)
    (contResp summaryResp : Except Unit (Option String)) (mainOk : Bool)
    (now timeout : Int) (q : QueryOk)
    (h : runQuery sess0 rawProb contResp summaryResp mainOk now timeout = .ok q) :
    q.session.last_topic.isSome = true ∧ 1 ≤ q.respCtl ∧
    1 ≤ q.session.current_topic_length := by
  obtain ⟨s1, outcome, s2, raw, hr, hs, hraw, hmain, hq⟩ :=
    runQuery_ok_elim sess0 rawProb contResp summaryResp mainOk now timeout q h
  subst hq
  exact ⟨(summarizeIfNeeded_ok s1 summaryResp s2 hs).1,
    Nat.le_add_left 1 s2.current_topic_length,
    Nat.le_add_left 1 s2.current_topic_length⟩

/-- C10 witness: the amended invariant at a concrete first-request cycle. -/
theorem c10_witness :
    (⟨⟨some "hello", 1, 3⟩, .FRESH, 0, 3 / 20, .standard, 1⟩ :
        QueryOk).session.last_topic.isSome = true ∧
    1 ≤ (⟨⟨some "hello", 1, 3⟩, .FRESH, 0, 3 / 20, .standard, 1⟩ : QueryOk).respCtl ∧
    1 ≤ (⟨⟨some "hello", 1, 3⟩, .FRESH, 0, 3 / 20, .standard, 1⟩ :
        QueryOk).session.current_topic_length :=
  c10_amended none (some (1 / 4)) (.ok none) (.ok (some "hello")) true 3 50
    ⟨⟨some "hello", 1, 3⟩, .FRESH, 0, 3 / 20, .standard, 1⟩ (by decide)

end ScoreMvp
